import Mathlib

/-!
# Verification of the `gcdataproc` cluster-reconciliation module

A shallow embedding of `cloud/google/gcdataproc.py`, an Ansible module that
creates or deletes Google Cloud Dataproc clusters.  Remote API behaviour
(get / create / delete results, poll responses) is supplied by an oracle
(`World`); the embedding records the sequence of remote calls and sleeps in a
trace, and the module's final outcome (`exit_json`, `fail_json`, an uncaught
exception, or divergence of the poll loop, which is modelled with fuel).
-/

namespace Gcdataproc

/-- An opaque key/value mapping passed through verbatim (Python `dict`
module options such as `metadata` and the master/worker configs). -/
structure Dict where
  entries : List (String × String) := []
deriving DecidableEq

/-- Python truthiness of an optional string: `None` and `''` are falsy. -/
def truthyStr : Option String → Bool
  | none => false
  | some s => !(s == "")

/-- Python truthiness of an optional list: `None` and `[]` are falsy. -/
def truthyList : Option (List String) → Bool
  | none => false
  | some l => !l.isEmpty

/-- Python truthiness of an optional dict: `None` and `{}` are falsy. -/
def truthyDict : Option Dict → Bool
  | none => false
  | some d => !d.entries.isEmpty

/-- `generate_resource_uri(project, *args)` from the source: the compute base
URI for `project` followed by the remaining path components joined by `/`. -/
def generate_resource_uri (project : String) (args : List String) : String :=
  "https://www.googleapis.com/compute/v1/projects/" ++ project ++ "/"
    ++ String.intercalate "/" args

/-- `body['config']['softwareConfig']` after the two assignments in the
source (created as `{}` and immediately given its `imageVersion` entry). -/
structure SoftwareConfig where
  imageVersion : String
deriving DecidableEq

/-- `body['config']['gceClusterConfig']`: created with `zoneUri`; `tags`,
`networkUri` and `subnetworkUri` are inserted only when truthy. -/
structure GceClusterConfig where
  zoneUri : String
  tags : Option (List String) := none
  networkUri : Option String := none
  subnetworkUri : Option String := none
deriving DecidableEq

/-- The dictionary the source tries to reach under the misspelled key
`'gceConfigCluster'`.  No code path ever creates this key, so its value in
`config` is always `none`; a lookup of a missing key raises `KeyError`. -/
structure GceConfigCluster where
  serviceAccountScopes : Option (List String) := none
  metadata : Option Dict := none
deriving DecidableEq

/-- `body['config']`. -/
structure Config where
  gceClusterConfig : GceClusterConfig
  softwareConfig : Option SoftwareConfig := none
  configBucket : Option String := none
  gceConfigCluster : Option GceConfigCluster := none
  initializationActions : Option (List String) := none
  masterConfig : Option Dict := none
  workerConfig : Option Dict := none
  secondaryWorkerConfig : Option Dict := none
deriving DecidableEq

/-- The request body built by `populate_request_body`. -/
structure Body where
  clusterName : String
  projectId : String
  config : Config
deriving DecidableEq

/-- The values `populate_request_body` reads from `module.params`. -/
structure Params where
  image_version : Option String := none
  bucket : Option String := none
  network : Option String := none
  subnetwork : Option String := none
  tags : Option String := none
  service_account_scopes : Option (List String) := none
  metadata : Option Dict := none
  init_actions : Option (List String) := none
  master_config : Option Dict := none
  worker_config : Option Dict := none
  second_worker_config : Option Dict := none
deriving DecidableEq

/-- The initial `body = {...}` literal of `populate_request_body`. -/
def initialBody (name project zone : String) : Body :=
  { clusterName := name
    projectId := project
    config :=
      { gceClusterConfig :=
          { zoneUri := generate_resource_uri project ["zones", zone] } } }

/-- `if image_version:` block — sets `config['softwareConfig']` to `{}` and
then its `imageVersion` entry. -/
def stepSoftware (p : Params) (b : Body) : Body :=
  if truthyStr p.image_version then
    let sc : SoftwareConfig := { imageVersion := p.image_version.getD "" }
    { b with config := { b.config with softwareConfig := some sc } }
  else b

/-- `if bucket:` block — sets `config['configBucket']`. -/
def stepBucket (p : Params) (b : Body) : Body :=
  if truthyStr p.bucket then
    { b with config := { b.config with configBucket := p.bucket } }
  else b

/-- `if tags:` block — sets `config['gceClusterConfig']['tags']` to the
comma-split of the tags string. -/
def stepTags (p : Params) (b : Body) : Body :=
  if truthyStr p.tags then
    { b with config :=
        { b.config with gceClusterConfig :=
            { b.config.gceClusterConfig with
                tags := some ((p.tags.getD "").splitOn ",") } } }
  else b

/-- `if network:` block — sets `config['gceClusterConfig']['networkUri']`. -/
def stepNetwork (p : Params) (project region : String) (b : Body) : Body :=
  if truthyStr p.network then
    let uri := generate_resource_uri project ["regions", region, p.network.getD ""]
    { b with config :=
        { b.config with gceClusterConfig :=
            { b.config.gceClusterConfig with networkUri := some uri } } }
  else b

/-- `if subnetwork:` block — sets
`config['gceClusterConfig']['subnetworkUri']`. -/
def stepSubnetwork (p : Params) (project region : String) (b : Body) : Body :=
  if truthyStr p.subnetwork then
    let uri := generate_resource_uri project ["regions", region, p.subnetwork.getD ""]
    { b with config :=
        { b.config with gceClusterConfig :=
            { b.config.gceClusterConfig with subnetworkUri := some uri } } }
  else b

/-- `if service_account_scopes:` block.  The source writes to
`body['config']['gceConfigCluster'][...]`; looking up the key
`'gceConfigCluster'` raises `KeyError` when it is absent, and it is never
created anywhere in the source. -/
def stepScopes (p : Params) (b : Body) : Except String Body :=
  if truthyList p.service_account_scopes then
    match b.config.gceConfigCluster with
    | none => .error "KeyError: gceConfigCluster"
    | some g =>
      let expanded := (p.service_account_scopes.getD []).map
        (fun s => "https://www.googleapis.com/auth/" ++ s)
      let g' : GceConfigCluster := { g with serviceAccountScopes := some expanded }
      .ok { b with config := { b.config with gceConfigCluster := some g' } }
  else .ok b

/-- `if metadata:` block — also written to the misspelled key
`'gceConfigCluster'`, hence the same `KeyError` behaviour. -/
def stepMetadata (p : Params) (b : Body) : Except String Body :=
  if truthyDict p.metadata then
    match b.config.gceConfigCluster with
    | none => .error "KeyError: gceConfigCluster"
    | some g =>
      let g' : GceConfigCluster := { g with metadata := p.metadata }
      .ok { b with config := { b.config with gceConfigCluster := some g' } }
  else .ok b

/-- `if init_actions:` block — sets `config['initializationActions']`. -/
def stepInitActions (p : Params) (b : Body) : Body :=
  if truthyList p.init_actions then
    { b with config := { b.config with initializationActions := p.init_actions } }
  else b

/-- `if master_config:` block. -/
def stepMaster (p : Params) (b : Body) : Body :=
  if truthyDict p.master_config then
    { b with config := { b.config with masterConfig := p.master_config } }
  else b

/-- `if worker_config:` block. -/
def stepWorker (p : Params) (b : Body) : Body :=
  if truthyDict p.worker_config then
    { b with config := { b.config with workerConfig := p.worker_config } }
  else b

/-- `if second_worker_config:` block. -/
def stepSecondWorker (p : Params) (b : Body) : Body :=
  if truthyDict p.second_worker_config then
    { b with config := { b.config with secondaryWorkerConfig := p.second_worker_config } }
  else b

/-- `populate_request_body(module, name, project, region, zone)`: the body
literal followed by the eleven conditional insertions, in source order.  The
two insertions that address the misspelled `'gceConfigCluster'` key can raise
`KeyError`, which propagates (`Except.error`). -/
def populate_request_body (p : Params) (name project region zone : String) :
    Except String Body :=
  let b := initialBody name project zone
  let b := stepSoftware p b
  let b := stepBucket p b
  let b := stepTags p b
  let b := stepNetwork p project region b
  let b := stepSubnetwork p project region b
  match stepScopes p b with
  | .error e => .error e
  | .ok b =>
    match stepMetadata p b with
    | .error e => .error e
    | .ok b =>
      let b := stepInitActions p b
      let b := stepMaster p b
      let b := stepWorker p b
      let b := stepSecondWorker p b
      .ok b

/-- The keys of the `argument_spec` dictionary passed to `AnsibleModule` in
`main` (note that `tags` is not among them, so `module.params.get('tags')`
always yields `None`). -/
def argument_spec_keys : List String :=
  ["name", "state", "network", "subnetwork", "region", "zone", "sync",
   "poll_interval", "image_version", "service_account_scopes", "metadata",
   "init_actions", "master_config", "worker_config", "second_worker_config",
   "bucket"]

/-- The module's public interface: one field per `argument_spec` entry, with
the source's defaults. -/
structure ModuleArgs where
  name : String
  state : String := "present"
  network : Option String := none
  subnetwork : Option String := none
  region : String := "us-central1"
  zone : String := "us-central1-a"
  sync : Bool := true
  poll_interval : Nat := 1
  image_version : Option String := none
  service_account_scopes : Option (List String) := none
  metadata : Option Dict := none
  init_actions : Option (List String) := none
  master_config : Option Dict := none
  worker_config : Option Dict := none
  second_worker_config : Option Dict := none
  bucket : Option String := none

/-- `module.params` as read by `populate_request_body`.  All declared options
pass through; `tags` is absent from `argument_spec`, so `params.get('tags')`
is `None`. -/
def Params.ofArgs (a : ModuleArgs) : Params :=
  { image_version := a.image_version
    bucket := a.bucket
    network := a.network
    subnetwork := a.subnetwork
    tags := none
    service_account_scopes := a.service_account_scopes
    metadata := a.metadata
    init_actions := a.init_actions
    master_config := a.master_config
    worker_config := a.worker_config
    second_worker_config := a.second_worker_config }

/-- The three environment variables read in `main`;
`os.environ.get` yields `None` when unset. -/
structure Env where
  gce_email : Option String := none
  gce_project : Option String := none
  gce_credentials : Option String := none

/-- `if not gce_email or not gce_project or not gce_credentials` — all three
must be truthy (set and non-empty). -/
def envOk (e : Env) : Bool :=
  truthyStr e.gce_email && truthyStr e.gce_project && truthyStr e.gce_credentials

/-- The `status` sub-dictionary of an API response; `state` may be missing
(its lookup then raises `KeyError`). -/
structure RespStatus where
  state : Option String := none
deriving DecidableEq

/-- An API response body: an optional `status` entry plus an opaque payload
standing for the rest of the JSON document. -/
structure Resp where
  status : Option RespStatus := none
  payload : String := ""
deriving DecidableEq

/-- Result of the initial `.get(...)` fetch: a response, an `HttpError`
(which the source treats as the cluster not existing), or any other
exception. -/
inductive FetchResult where
  | ok (r : Resp)
  | httpError (msg : String)
  | otherError (msg : String)

/-- The oracle supplying the outcome of every external interaction: the
credentials parse, the initial fetch, the create and delete calls, and the
`n`-th response of the poll loop. -/
structure World where
  auth : Except String Unit := .ok ()
  fetch0 : FetchResult := .httpError "404"
  createRes : Except String Resp := .ok {}
  deleteRes : Except String Resp := .ok {}
  polls : Nat → Resp := fun _ => {}

/-- One observable external action: a remote API call or a `time.sleep`. -/
inductive Call where
  | get (projectId region clusterName : String)
  | create (projectId region : String) (body : Body)
  | delete (projectId region clusterName : String)
  | sleep (seconds : Nat)
deriving DecidableEq

/-- Whether a call is a cluster-create request. -/
def Call.isCreate : Call → Bool
  | .create _ _ _ => true
  | _ => false

/-- Whether a call is a cluster-get request. -/
def Call.isGet : Call → Bool
  | .get _ _ _ => true
  | _ => false

/-- Whether a call is a cluster-delete request. -/
def Call.isDelete : Call → Bool
  | .delete _ _ _ => true
  | _ => false

/-- True when the call is not a remote request (a sleep) or carries the
literal region `'global'`. -/
def Call.regionIsGlobal : Call → Bool
  | .get _ r _ => r == "global"
  | .create _ r _ => r == "global"
  | .delete _ r _ => r == "global"
  | .sleep _ => true

/-- The module's terminal behaviour: `module.exit_json`, `module.fail_json`,
an uncaught Python exception (a traceback, not a JSON result), or
non-termination of the poll loop (reported when the fuel runs out). -/
inductive Outcome where
  | exitJson (changed : Bool) (json : Resp)
  | failJson (changed : Bool) (msg : String)
  | crash (msg : String)
  | diverge
deriving DecidableEq

/-- The poll-loop guard
`'status' not in json or json['status']['state'] != 'RUNNING'`:
`.ok true` means keep looping, `.ok false` means stop, `.error` means the
`state` lookup raised `KeyError`. -/
def pollCond (r : Resp) : Except String Bool :=
  match r.status with
  | none => .ok true
  | some st =>
    match st.state with
    | none => .error "KeyError: state"
    | some s => .ok (s != "RUNNING")

/-- Result of running the poll loop to completion, to a crash, or out of
fuel. -/
inductive PollRes where
  | crashed (msg : String)
  | outOfFuel
  | done (r : Resp)
deriving DecidableEq

/-- The `while` loop of the sync path: re-fetch the cluster and sleep
`poll_interval` seconds until the guard fails.  `fuel` bounds the number of
iterations we unfold; the source itself has no bound. -/
def pollLoop (project name : String) (interval : Nat) (polls : Nat → Resp) :
    Nat → Nat → Resp → List Call × PollRes
  | 0, _, j =>
    (match pollCond j with
     | .error e => ([], .crashed e)
     | .ok false => ([], .done j)
     | .ok true => ([], .outOfFuel))
  | fuel + 1, k, j =>
    match pollCond j with
    | .error e => ([], .crashed e)
    | .ok false => ([], .done j)
    | .ok true =>
      let rest := pollLoop project name interval polls fuel (k + 1) (polls k)
      (Call.get project "global" name :: Call.sleep interval :: rest.1, rest.2)

/-- The `state in ['present', 'active']` branch of `main`: fetch, and on
`HttpError` build the body, create, and optionally poll.  Exceptions raised
by the create call or inside the poll loop occur within the `except
HttpError:` handler, so the sibling `except Exception` clause does not catch
them: they propagate as a crash. -/
def presentFlow (a : ModuleArgs) (w : World) (project : String) (fuel : Nat) :
    Outcome × List Call :=
  let getC := Call.get project "global" a.name
  match w.fetch0 with
  | .ok r => (.exitJson false r, [getC])
  | .otherError e => (.failJson false e, [getC])
  | .httpError _ =>
    match populate_request_body (Params.ofArgs a) a.name project a.region a.zone with
    | .error e => (.crash e, [getC])
    | .ok body =>
      let createC := Call.create project "global" body
      match w.createRes with
      | .error e => (.crash e, [getC, createC])
      | .ok cj =>
        if a.sync then
          let res := pollLoop project a.name a.poll_interval w.polls fuel 0 cj
          match res.2 with
          | .crashed e => (.crash e, getC :: createC :: res.1)
          | .outOfFuel => (.diverge, getC :: createC :: res.1)
          | .done jf => (.exitJson true jf, getC :: createC :: res.1)
        else (.exitJson true cj, [getC, createC])

/-- The `state in ['absent', 'deleted']` branch of `main`: fetch; on
`HttpError` pass (no-op); on success run the `else:` clause, which deletes.
An exception raised by the delete call occurs in the `else:` clause of the
`try`, so it is not caught either: it propagates as a crash. -/
def absentFlow (a : ModuleArgs) (w : World) (project : String) :
    Outcome × List Call :=
  let getC := Call.get project "global" a.name
  match w.fetch0 with
  | .httpError _ => (.exitJson false {}, [getC])
  | .otherError e => (.failJson false e, [getC])
  | .ok _ =>
    let delC := Call.delete project "global" a.name
    match w.deleteRes with
    | .error e => (.crash e, [getC, delC])
    | .ok dj => (.exitJson true dj, [getC, delC])

/-- Python's `zone.startswith(region)`: `region` is a prefix of `zone`
(stated over the character lists of the two strings). -/
def startswith (s pre : String) : Bool :=
  pre.data.isPrefixOf s.data

/-- Message produced by the mutually-exclusive check.
Modelled from the spec: the `AnsibleModule` framework (not part of this
repository) rejects inputs where both options of a `mutually_exclusive`
pair are set, before the module body runs. -/
def mutuallyExclusiveMsg : String :=
  "parameters are mutually exclusive: network, subnetwork"

/-- `fail_json` message for a zone/region mismatch. -/
def zoneMismatchMsg (region zone : String) : String :=
  "Region " ++ region ++ " must contain zone " ++ zone

/-- `fail_json` message for missing environment variables. -/
def envMsg : String :=
  "Please define Google auth environment variables GCE_EMAIL, GCE_PROJECT and GCE_CREDENTIALS_FILE_PATH"

/-- `fail_json` message for a missing client library. -/
def libMsg : String :=
  "Please install google-api-python-client library"

/-- `main()`: argument validation (the `AnsibleModule` mutually-exclusive
check, modelled from the spec, runs first), the library check, the
zone/region prefix check, the environment check, authentication, then the
state dispatch.  Returns the outcome together with the trace of external
calls. -/
def main (hasLib : Bool) (a : ModuleArgs) (env : Env) (w : World) (fuel : Nat) :
    Outcome × List Call :=
  if a.network.isSome ∧ a.subnetwork.isSome then
    (.failJson false mutuallyExclusiveMsg, [])
  else if ¬ hasLib then (.failJson false libMsg, [])
  else if ¬ startswith a.zone a.region then
    (.failJson false (zoneMismatchMsg a.region a.zone), [])
  else if ¬ envOk env then (.failJson false envMsg, [])
  else
    match w.auth with
    | .error e => (.failJson false e, [])
    | .ok _ =>
      let project := env.gce_project.getD ""
      if a.state = "present" ∨ a.state = "active" then
        presentFlow a w project fuel
      else if a.state = "absent" ∨ a.state = "deleted" then
        absentFlow a w project
      else (.exitJson false {}, [])

/-- A response whose `status.state` is the literal `"RUNNING"`. -/
def isRunning (r : Resp) : Bool :=
  match r.status with
  | some st => st.state == some "RUNNING"
  | none => false

/-- The request body `populate_request_body` produces when neither
`service_account_scopes` nor `metadata` is truthy, written as a single
record: each optional entry is present exactly when its option is truthy. -/
def cleanBody (p : Params) (name project region zone : String) : Body :=
  { clusterName := name
    projectId := project
    config :=
      { gceClusterConfig :=
          { zoneUri := generate_resource_uri project ["zones", zone]
            tags := if truthyStr p.tags then some ((p.tags.getD "").splitOn ",") else none
            networkUri :=
              if truthyStr p.network then
                some (generate_resource_uri project ["regions", region, p.network.getD ""])
              else none
            subnetworkUri :=
              if truthyStr p.subnetwork then
                some (generate_resource_uri project ["regions", region, p.subnetwork.getD ""])
              else none }
        softwareConfig :=
          if truthyStr p.image_version then
            some ⟨p.image_version.getD ""⟩
          else none
        configBucket := if truthyStr p.bucket then p.bucket else none
        gceConfigCluster := none
        initializationActions := if truthyList p.init_actions then p.init_actions else none
        masterConfig := if truthyDict p.master_config then p.master_config else none
        workerConfig := if truthyDict p.worker_config then p.worker_config else none
        secondaryWorkerConfig :=
          if truthyDict p.second_worker_config then p.second_worker_config else none } }

/-- True exactly on `fail_json` outcomes. -/
def Outcome.isFailJson : Outcome → Bool
  | .failJson _ _ => true
  | _ => false

/-- The property a create request body must have per the spec: the three
mandatory fields are present, and each optional field is present exactly
when the corresponding option is present and non-empty (absent otherwise,
never null or empty). -/
def bodyMatches (b : Body) (p : Params) (name project region zone : String) : Prop :=
  b.clusterName = name ∧
  b.projectId = project ∧
  b.config.gceClusterConfig.zoneUri = generate_resource_uri project ["zones", zone] ∧
  b.config.softwareConfig =
    (if truthyStr p.image_version then some ⟨p.image_version.getD ""⟩ else none) ∧
  b.config.configBucket = (if truthyStr p.bucket then p.bucket else none) ∧
  b.config.gceClusterConfig.tags =
    (if truthyStr p.tags then some ((p.tags.getD "").splitOn ",") else none) ∧
  b.config.gceClusterConfig.networkUri =
    (if truthyStr p.network then
      some (generate_resource_uri project ["regions", region, p.network.getD ""]) else none) ∧
  b.config.gceClusterConfig.subnetworkUri =
    (if truthyStr p.subnetwork then
      some (generate_resource_uri project ["regions", region, p.subnetwork.getD ""]) else none) ∧
  b.config.gceConfigCluster = none ∧
  b.config.initializationActions =
    (if truthyList p.init_actions then p.init_actions else none) ∧
  b.config.masterConfig = (if truthyDict p.master_config then p.master_config else none) ∧
  b.config.workerConfig = (if truthyDict p.worker_config then p.worker_config else none) ∧
  b.config.secondaryWorkerConfig =
    (if truthyDict p.second_worker_config then p.second_worker_config else none)

/-- A fully populated environment, for concrete runs. -/
def demoEnv : Env :=
  { gce_email := some "admin@example.com"
    gce_project := some "proj"
    gce_credentials := some "/cred.json" }

/-- The default oracle: auth succeeds, the initial fetch reports not found,
create and delete succeed with empty bodies, every poll returns an empty
body. -/
def demoWorld : World := {}

/-- A minimal valid invocation with `sync` off. -/
def noSyncArgs : ModuleArgs := { name := "demo", sync := false }

/-- A minimal valid invocation that also sets service-account scopes. -/
def scopesArgs : ModuleArgs :=
  { name := "demo", sync := false, service_account_scopes := some ["storage-rw"] }

theorem stepScopes_skip (p : Params) (b : Body)
    (h : truthyList p.service_account_scopes = false) :
    stepScopes p b = .ok b := by
  simp [stepScopes, h]

theorem stepMetadata_skip (p : Params) (b : Body)
    (h : truthyDict p.metadata = false) :
    stepMetadata p b = .ok b := by
  simp [stepMetadata, h]

theorem stepNetwork_skip (p : Params) (project region : String) (b : Body)
    (h : truthyStr p.network = false) :
    stepNetwork p project region b = b := by
  simp [stepNetwork, h]

theorem stepSubnetwork_skip (p : Params) (project region : String) (b : Body)
    (h : truthyStr p.subnetwork = false) :
    stepSubnetwork p project region b = b := by
  simp [stepSubnetwork, h]

theorem stepSoftware_gcc (p : Params) (b : Body) :
    (stepSoftware p b).config.gceConfigCluster = b.config.gceConfigCluster := by
  unfold stepSoftware; split <;> rfl

theorem stepBucket_gcc (p : Params) (b : Body) :
    (stepBucket p b).config.gceConfigCluster = b.config.gceConfigCluster := by
  unfold stepBucket; split <;> rfl

theorem stepTags_gcc (p : Params) (b : Body) :
    (stepTags p b).config.gceConfigCluster = b.config.gceConfigCluster := by
  unfold stepTags; split <;> rfl

theorem stepNetwork_gcc (p : Params) (project region : String) (b : Body) :
    (stepNetwork p project region b).config.gceConfigCluster = b.config.gceConfigCluster := by
  unfold stepNetwork; split <;> rfl

theorem stepSubnetwork_gcc (p : Params) (project region : String) (b : Body) :
    (stepSubnetwork p project region b).config.gceConfigCluster = b.config.gceConfigCluster := by
  unfold stepSubnetwork; split <;> rfl

theorem stepScopes_raises (p : Params) (b : Body)
    (h : truthyList p.service_account_scopes = true)
    (hg : b.config.gceConfigCluster = none) :
    stepScopes p b = .error "KeyError: gceConfigCluster" := by
  simp [stepScopes, h, hg]

/-- Under falsy scopes and metadata the eleven-step pipeline never raises and
equals `cleanBody`. -/
theorem populate_request_body_eq (p : Params) (name project region zone : String)
    (hsc : truthyList p.service_account_scopes = false)
    (hmd : truthyDict p.metadata = false) :
    populate_request_body p name project region zone =
      .ok (cleanBody p name project region zone) := by
  unfold populate_request_body
  simp only [stepScopes_skip _ _ hsc, stepMetadata_skip _ _ hmd]
  cases hiv : truthyStr p.image_version <;>
    cases hbk : truthyStr p.bucket <;>
    cases htg : truthyStr p.tags <;>
    cases hnw : truthyStr p.network <;>
    cases hsn : truthyStr p.subnetwork <;>
    cases hia : truthyList p.init_actions <;>
    cases hmc : truthyDict p.master_config <;>
    cases hwc : truthyDict p.worker_config <;>
    cases hsw : truthyDict p.second_worker_config <;>
    simp [stepSoftware, stepBucket, stepTags, stepNetwork, stepSubnetwork,
      stepInitActions, stepMaster, stepWorker, stepSecondWorker, initialBody,
      cleanBody, hiv, hbk, htg, hnw, hsn, hia, hmc, hwc, hsw]

/-- A stopped poll guard means the response's status state is `"RUNNING"`. -/
theorem pollCond_false_running (r : Resp) (h : pollCond r = .ok false) :
    isRunning r = true := by
  unfold pollCond at h
  unfold isRunning
  cases hs : r.status with
  | none => simp [hs] at h
  | some st =>
    simp only [hs] at h ⊢
    cases hst : st.state with
    | none => simp [hst] at h
    | some s =>
      simp only [hst] at h
      simp at h
      simp [hst, h]

/-- Every call the poll loop emits is a get against region `'global'` or a
sleep of exactly `interval` seconds. -/
theorem pollLoop_calls (project name : String) (interval : Nat) (polls : Nat → Resp) :
    ∀ fuel k j c, c ∈ (pollLoop project name interval polls fuel k j).1 →
      c = Call.get project "global" name ∨ c = Call.sleep interval := by
  intro fuel
  induction fuel with
  | zero =>
    intro k j c hmem
    unfold pollLoop at hmem
    rcases h : pollCond j with e | b
    · rw [h] at hmem; simp at hmem
    · rw [h] at hmem; cases b <;> simp at hmem
  | succ n ih =>
    intro k j c hmem
    unfold pollLoop at hmem
    rcases h : pollCond j with e | b
    · rw [h] at hmem; simp at hmem
    · rw [h] at hmem
      cases b with
      | false => simp at hmem
      | true =>
        simp at hmem
        rcases hmem with h1 | h1 | h2
        · exact Or.inl h1
        · exact Or.inr h1
        · exact ih (k + 1) (polls k) c h2

/-- When the poll loop finishes normally, the final response is `RUNNING`. -/
theorem pollLoop_done_running (project name : String) (interval : Nat) (polls : Nat → Resp) :
    ∀ fuel k j jf, (pollLoop project name interval polls fuel k j).2 = .done jf →
      isRunning jf = true := by
  intro fuel
  induction fuel with
  | zero =>
    intro k j jf hd
    unfold pollLoop at hd
    rcases h : pollCond j with e | b
    · rw [h] at hd; simp at hd
    · rw [h] at hd
      cases b with
      | false =>
        simp at hd
        exact hd ▸ pollCond_false_running j h
      | true => simp at hd
  | succ n ih =>
    intro k j jf hd
    unfold pollLoop at hd
    rcases h : pollCond j with e | b
    · rw [h] at hd; simp at hd
    · rw [h] at hd
      cases b with
      | false =>
        simp at hd
        exact hd ▸ pollCond_false_running j h
      | true =>
        simp at hd
        exact ih (k + 1) (polls k) jf hd

/-- If the current and every future response keeps the guard true (exists,
has a `state`, never `"RUNNING"`), the loop exhausts any amount of fuel:
it never terminates. -/
theorem pollLoop_stuck (project name : String) (interval : Nat) (polls : Nat → Resp)
    (hall : ∀ n, pollCond (polls n) = .ok true) :
    ∀ fuel k j, pollCond j = .ok true →
      (pollLoop project name interval polls fuel k j).2 = .outOfFuel := by
  intro fuel
  induction fuel with
  | zero =>
    intro k j hj
    unfold pollLoop
    rw [hj]
  | succ n ih =>
    intro k j hj
    unfold pollLoop
    rw [hj]
    simp only
    exact ih (k + 1) (polls k) (hall k)

/-- Reduction of `main` to the present-state flow once every validation
passes. -/
theorem main_eq_present (a : ModuleArgs) (env : Env) (w : World) (fuel : Nat)
    (hmux : ¬(a.network.isSome = true ∧ a.subnetwork.isSome = true))
    (hzone : startswith a.zone a.region = true)
    (henv : envOk env = true)
    (hauth : w.auth = .ok ())
    (hstate : a.state = "present" ∨ a.state = "active") :
    main true a env w fuel = presentFlow a w (env.gce_project.getD "") fuel := by
  unfold main
  rw [if_neg hmux]
  rw [if_neg (show ¬¬(true = true) by simp)]
  rw [if_neg (show ¬¬(startswith a.zone a.region = true) by simp [hzone])]
  rw [if_neg (show ¬¬(envOk env = true) by simp [henv])]
  rw [hauth]
  simp only
  rw [if_pos hstate]

/-- Reduction of `main` to the absent-state flow once every validation
passes. -/
theorem main_eq_absent (a : ModuleArgs) (env : Env) (w : World) (fuel : Nat)
    (hmux : ¬(a.network.isSome = true ∧ a.subnetwork.isSome = true))
    (hzone : startswith a.zone a.region = true)
    (henv : envOk env = true)
    (hauth : w.auth = .ok ())
    (hstate : a.state = "absent" ∨ a.state = "deleted")
    (hnp : ¬(a.state = "present" ∨ a.state = "active")) :
    main true a env w fuel = absentFlow a w (env.gce_project.getD "") := by
  unfold main
  rw [if_neg hmux]
  rw [if_neg (show ¬¬(true = true) by simp)]
  rw [if_neg (show ¬¬(startswith a.zone a.region = true) by simp [hzone])]
  rw [if_neg (show ¬¬(envOk env = true) by simp [henv])]
  rw [hauth]
  simp only
  rw [if_neg hnp, if_pos hstate]

theorem stepMetadata_raises (p : Params) (b : Body)
    (h : truthyDict p.metadata = true)
    (hg : b.config.gceConfigCluster = none) :
    stepMetadata p b = .error "KeyError: gceConfigCluster" := by
  simp [stepMetadata, h, hg]

/-- Whenever `service_account_scopes` or `metadata` is truthy, body
construction reaches a lookup of the never-created key `gceConfigCluster`
and raises `KeyError`. -/
theorem populate_raises (p : Params) (name project region zone : String)
    (h : truthyList p.service_account_scopes = true ∨ truthyDict p.metadata = true) :
    populate_request_body p name project region zone = .error "KeyError: gceConfigCluster" := by
  unfold populate_request_body
  have h5 : (stepSubnetwork p project region (stepNetwork p project region
      (stepTags p (stepBucket p (stepSoftware p (initialBody name project zone)))))).config.gceConfigCluster = none := by
    rw [stepSubnetwork_gcc, stepNetwork_gcc, stepTags_gcc, stepBucket_gcc, stepSoftware_gcc]
    rfl
  by_cases hsc : truthyList p.service_account_scopes = true
  · simp only [stepScopes_raises _ _ hsc h5]
  · have hsc' : truthyList p.service_account_scopes = false := by
      cases hx : truthyList p.service_account_scopes
      · rfl
      · exact absurd hx hsc
    have hmd : truthyDict p.metadata = true := by
      rcases h with h | h
      · exact absurd h hsc
      · exact h
    simp only [stepScopes_skip _ _ hsc']
    simp only [stepMetadata_raises _ _ hmd h5]

theorem cleanBody_matches (p : Params) (name project region zone : String) :
    bodyMatches (cleanBody p name project region zone) p name project region zone :=
  ⟨rfl, rfl, rfl, rfl, rfl, rfl, rfl, rfl, rfl, rfl, rfl, rfl, rfl⟩

theorem presentFlow_calls (a : ModuleArgs) (w : World) (project : String) (fuel : Nat)
    (c : Call) (hc : c ∈ (presentFlow a w project fuel).2) :
    Call.regionIsGlobal c = true := by
  unfold presentFlow at hc
  rcases hf : w.fetch0 with r | msg | msg <;> rw [hf] at hc
  · simp at hc
    rw [hc]; rfl
  · rcases hp : populate_request_body (Params.ofArgs a) a.name project a.region a.zone with e | body <;>
      rw [hp] at hc
    · simp at hc
      rw [hc]; rfl
    · rcases hcr : w.createRes with e | cj <;> rw [hcr] at hc
      · simp at hc
        rcases hc with hc | hc <;> rw [hc] <;> rfl
      · cases hsync : a.sync <;> rw [hsync] at hc
        · simp at hc
          rcases hc with hc | hc <;> rw [hc] <;> rfl
        · rcases hres : (pollLoop project a.name a.poll_interval w.polls fuel 0 cj).2 with e | _ | jf <;>
            simp only [hres] at hc <;>
            simp at hc <;>
            (rcases hc with hc | hc | hc
             · rw [hc]; rfl
             · rw [hc]; rfl
             · rcases pollLoop_calls project a.name a.poll_interval w.polls fuel 0 cj c hc with h | h <;> rw [h] <;> rfl)
  · simp at hc
    rw [hc]; rfl

theorem absentFlow_calls (a : ModuleArgs) (w : World) (project : String)
    (c : Call) (hc : c ∈ (absentFlow a w project).2) :
    Call.regionIsGlobal c = true := by
  unfold absentFlow at hc
  rcases hf : w.fetch0 with r | msg | msg <;> rw [hf] at hc
  · rcases hd : w.deleteRes with e | dj <;> rw [hd] at hc <;>
      simp at hc <;> rcases hc with hc | hc <;> rw [hc] <;> rfl
  · simp at hc
    rw [hc]; rfl
  · simp at hc
    rw [hc]; rfl

/-- Every remote call `main` ever records is a get, create or delete keyed
to the literal region `'global'` (sleeps carry no region). -/
theorem main_calls_global (hasLib : Bool) (a : ModuleArgs) (env : Env) (w : World) (fuel : Nat)
    (c : Call) (hc : c ∈ (main hasLib a env w fuel).2) :
    Call.regionIsGlobal c = true := by
  unfold main at hc
  by_cases hmux : a.network.isSome = true ∧ a.subnetwork.isSome = true
  · rw [if_pos hmux] at hc
    simp at hc
  · rw [if_neg hmux] at hc
    cases hasLib with
    | false =>
      rw [if_pos (by simp)] at hc
      simp at hc
    | true =>
      rw [if_neg (show ¬¬(true = true) by simp)] at hc
      by_cases hz : startswith a.zone a.region = true
      · rw [if_neg (show ¬¬(startswith a.zone a.region = true) by simp [hz])] at hc
        by_cases he : envOk env = true
        · rw [if_neg (show ¬¬(envOk env = true) by simp [he])] at hc
          rcases ha : w.auth with e | u <;> rw [ha] at hc
          · simp at hc
          · by_cases hp : a.state = "present" ∨ a.state = "active"
            · rw [if_pos hp] at hc
              exact presentFlow_calls a w _ fuel c hc
            · rw [if_neg hp] at hc
              by_cases hab : a.state = "absent" ∨ a.state = "deleted"
              · rw [if_pos hab] at hc
                exact absentFlow_calls a w _ c hc
              · rw [if_neg hab] at hc
                simp at hc
        · rw [if_pos (by simp [he])] at hc
          simp at hc
      · rw [if_pos (by simp [hz])] at hc
        simp at hc

/-- C1 (counterexample): at a concrete input with desired state present, an
initial fetch reporting the cluster missing, and service-account scopes
present in the spec, the module issues zero create calls (the claim demands
exactly one) and ends in an uncaught `KeyError` instead of returning
changed=true. -/
theorem C1_counterexample :
    (main true scopesArgs demoEnv demoWorld 0).2.countP Call.isCreate = 0 ∧
    (main true scopesArgs demoEnv demoWorld 0).1 = .crash "KeyError: gceConfigCluster" := by
  constructor <;> decide

/-- C1 (amended): with desired state present, an initial fetch reporting the
cluster missing, and service-account scopes and metadata absent or empty
(when either is present, body construction raises an uncaught `KeyError`
and no create call is issued), the module issues exactly one create call
whose body carries the mandatory cluster name, project id and zone URI plus
exactly the optional fields that are present and non-empty in the spec, and
any normal exit carries changed=true. -/
theorem C1_create_exact_body (a : ModuleArgs) (env : Env) (w : World) (fuel : Nat)
    (m : String) (cj : Resp)
    (hmux : ¬(a.network.isSome = true ∧ a.subnetwork.isSome = true))
    (hzone : startswith a.zone a.region = true)
    (henv : envOk env = true)
    (hauth : w.auth = .ok ())
    (hstate : a.state = "present" ∨ a.state = "active")
    (hfetch : w.fetch0 = .httpError m)
    (hsc : truthyList a.service_account_scopes = false)
    (hmd : truthyDict a.metadata = false)
    (hcreate : w.createRes = .ok cj) :
    ((main true a env w fuel).2.countP Call.isCreate = 1) ∧
    Call.create (env.gce_project.getD "") "global"
      (cleanBody (Params.ofArgs a) a.name (env.gce_project.getD "") a.region a.zone) ∈
        (main true a env w fuel).2 ∧
    bodyMatches (cleanBody (Params.ofArgs a) a.name (env.gce_project.getD "") a.region a.zone)
      (Params.ofArgs a) a.name (env.gce_project.getD "") a.region a.zone ∧
    (∀ b j, (main true a env w fuel).1 = .exitJson b j → b = true) := by
  rw [main_eq_present a env w fuel hmux hzone henv hauth hstate]
  unfold presentFlow
  rw [hfetch]
  rw [populate_request_body_eq (Params.ofArgs a) a.name (env.gce_project.getD "") a.region a.zone hsc hmd]
  rw [hcreate]
  cases hsync : a.sync with
  | false =>
    refine ⟨?_, ?_, cleanBody_matches _ _ _ _ _, ?_⟩
    · simp [List.countP_cons, Call.isCreate]
    · simp
    · intro b j h
      simp at h
      exact h.1
  | true =>
    have h0 : (pollLoop (env.gce_project.getD "") a.name a.poll_interval w.polls fuel 0 cj).1.countP Call.isCreate = 0 := by
      refine List.countP_eq_zero.mpr ?_
      intro c hc
      rcases pollLoop_calls (env.gce_project.getD "") a.name a.poll_interval w.polls fuel 0 cj c hc with h | h <;>
        simp [h, Call.isCreate]
    rcases hres : (pollLoop (env.gce_project.getD "") a.name a.poll_interval w.polls fuel 0 cj).2 with e | _ | jf <;>
      simp only [hres] <;>
      refine ⟨?_, ?_, cleanBody_matches _ _ _ _ _, ?_⟩
    · simp [List.countP_cons, Call.isCreate, h0]
    · simp
    · intro b j h
      simp at h
    · simp [List.countP_cons, Call.isCreate, h0]
    · simp
    · intro b j h
      simp at h
    · simp [List.countP_cons, Call.isCreate, h0]
    · simp
    · intro b j h
      simp at h
      exact h.1

/-- C1 (witness): the amended theorem evaluated at a concrete spec with no
optional fields and sync off. -/
theorem C1_witness :
    ((main true noSyncArgs demoEnv demoWorld 0).2.countP Call.isCreate = 1) ∧
    Call.create "proj" "global"
      (cleanBody (Params.ofArgs noSyncArgs) "demo" "proj" "us-central1" "us-central1-a") ∈
        (main true noSyncArgs demoEnv demoWorld 0).2 ∧
    bodyMatches (cleanBody (Params.ofArgs noSyncArgs) "demo" "proj" "us-central1" "us-central1-a")
      (Params.ofArgs noSyncArgs) "demo" "proj" "us-central1" "us-central1-a" ∧
    (∀ b j, (main true noSyncArgs demoEnv demoWorld 0).1 = .exitJson b j → b = true) :=
  C1_create_exact_body noSyncArgs demoEnv demoWorld 0 "404" {} (by decide) (by decide) (by decide)
    rfl (Or.inl rfl) rfl rfl rfl rfl

/-- C2 (counterexample): an error raised by the create call is not reported
through `fail_json` with the accumulated changed flag, as the claim states:
it propagates as an uncaught exception. -/
theorem C2_counterexample :
    (main true noSyncArgs demoEnv { createRes := .error "boom" } 0).1 = .crash "boom" ∧
    ((main true noSyncArgs demoEnv { createRes := .error "boom" } 0).1).isFailJson = false := by
  constructor <;> decide

/-- C2 (amended): authentication failures and non-HttpError errors raised by
the initial fetch, in both the present and absent paths, halt with a single
fatal outcome carrying the error message verbatim and the changed flag
accumulated so far (still false at those points); errors raised by the
create or delete calls instead propagate as uncaught exceptions. -/
theorem C2_fatal_error_paths (a : ModuleArgs) (env : Env) (w : World) (fuel : Nat)
    (hmux : ¬(a.network.isSome = true ∧ a.subnetwork.isSome = true))
    (hzone : startswith a.zone a.region = true)
    (henv : envOk env = true) :
    (∀ e, w.auth = .error e → main true a env w fuel = (.failJson false e, [])) ∧
    (∀ e, w.auth = .ok () → (a.state = "present" ∨ a.state = "active") →
      w.fetch0 = .otherError e →
      main true a env w fuel =
        (.failJson false e, [Call.get (env.gce_project.getD "") "global" a.name])) ∧
    (∀ e, w.auth = .ok () → (a.state = "absent" ∨ a.state = "deleted") →
      w.fetch0 = .otherError e →
      main true a env w fuel =
        (.failJson false e, [Call.get (env.gce_project.getD "") "global" a.name])) := by
  refine ⟨?_, ?_, ?_⟩
  · intro e hauth
    unfold main
    rw [if_neg hmux]
    rw [if_neg (show ¬¬(true = true) by simp)]
    rw [if_neg (show ¬¬(startswith a.zone a.region = true) by simp [hzone])]
    rw [if_neg (show ¬¬(envOk env = true) by simp [henv])]
    rw [hauth]
  · intro e hauth hstate hfetch
    rw [main_eq_present a env w fuel hmux hzone henv hauth hstate]
    unfold presentFlow
    rw [hfetch]
  · intro e hauth hstate hfetch
    have hnp : ¬(a.state = "present" ∨ a.state = "active") := by
      rcases hstate with h | h <;> rw [h] <;> decide
    rw [main_eq_absent a env w fuel hmux hzone henv hauth hstate hnp]
    unfold absentFlow
    rw [hfetch]

/-- C2 (witness): the amended theorem evaluated at an authentication
failure. -/
theorem C2_witness :
    main true noSyncArgs demoEnv { auth := .error "bad credentials" } 0 =
      (.failJson false "bad credentials", []) :=
  (C2_fatal_error_paths noSyncArgs demoEnv _ 0 (by decide) (by decide) (by decide)).1
    "bad credentials" rfl

/-- C3: with service-account scopes or metadata present (truthy) in the
spec, `populate_request_body` does not return a body carrying them under
the GCE cluster config: it writes to the misspelled, never-created key
`gceConfigCluster` and raises `KeyError`, so body construction fails. -/
theorem C3_scopes_metadata_keyerror (p : Params) (name project region zone : String)
    (h : truthyList p.service_account_scopes = true ∨ truthyDict p.metadata = true) :
    populate_request_body p name project region zone = .error "KeyError: gceConfigCluster" :=
  populate_raises p name project region zone h

/-- C3 (witness): the failure evaluated at a concrete spec with one
service-account scope. -/
theorem C3_witness :
    populate_request_body { service_account_scopes := some ["storage-rw"] }
        "demo" "proj" "us-central1" "us-central1-a" =
      .error "KeyError: gceConfigCluster" :=
  C3_scopes_metadata_keyerror _ "demo" "proj" "us-central1" "us-central1-a" (Or.inl (by decide))

/-- C4: after a create in the present path, (i) with sync false the poll
loop is not entered at all (the run ends at the create call with
changed=true); with sync true (ii) every sleep in the trace is exactly
poll_interval seconds, (iii) a normal exit only happens once the fetched
status is RUNNING, and (iv) if no response ever carries status RUNNING the
loop exhausts any amount of fuel: it never terminates, with no timeout or
backoff. -/
theorem C4_sync_poll_loop (a : ModuleArgs) (env : Env) (w : World) (fuel : Nat)
    (m : String) (cj : Resp)
    (hmux : ¬(a.network.isSome = true ∧ a.subnetwork.isSome = true))
    (hzone : startswith a.zone a.region = true)
    (henv : envOk env = true)
    (hauth : w.auth = .ok ())
    (hstate : a.state = "present" ∨ a.state = "active")
    (hfetch : w.fetch0 = .httpError m)
    (hsc : truthyList a.service_account_scopes = false)
    (hmd : truthyDict a.metadata = false)
    (hcreate : w.createRes = .ok cj) :
    (a.sync = false →
      main true a env w fuel =
        (.exitJson true cj,
         [Call.get (env.gce_project.getD "") "global" a.name,
          Call.create (env.gce_project.getD "") "global"
            (cleanBody (Params.ofArgs a) a.name (env.gce_project.getD "") a.region a.zone)])) ∧
    (a.sync = true → ∀ s, Call.sleep s ∈ (main true a env w fuel).2 → s = a.poll_interval) ∧
    (a.sync = true → ∀ b j, (main true a env w fuel).1 = .exitJson b j → isRunning j = true) ∧
    (a.sync = true → pollCond cj = .ok true → (∀ n, pollCond (w.polls n) = .ok true) →
      (main true a env w fuel).1 = .diverge) := by
  rw [main_eq_present a env w fuel hmux hzone henv hauth hstate]
  unfold presentFlow
  rw [hfetch]
  rw [populate_request_body_eq (Params.ofArgs a) a.name (env.gce_project.getD "") a.region a.zone hsc hmd]
  rw [hcreate]
  refine ⟨?_, ?_, ?_, ?_⟩
  · intro hsync
    rw [hsync]
    simp
  · intro hsync s hs
    rw [hsync] at hs
    simp only [if_pos rfl] at hs
    rcases hres : (pollLoop (env.gce_project.getD "") a.name a.poll_interval w.polls fuel 0 cj).2 with e | _ | jf <;>
      simp only [hres] at hs <;>
      simp at hs <;>
      rcases pollLoop_calls (env.gce_project.getD "") a.name a.poll_interval w.polls fuel 0 cj _ hs with h | h <;>
      simp at h <;>
      exact h
  · intro hsync b j h
    rw [hsync] at h
    simp only [if_pos rfl] at h
    rcases hres : (pollLoop (env.gce_project.getD "") a.name a.poll_interval w.polls fuel 0 cj).2 with e | _ | jf <;>
      simp only [hres] at h
    · simp at h
    · simp at h
    · simp at h
      rw [h.2.symm]
      exact pollLoop_done_running (env.gce_project.getD "") a.name a.poll_interval w.polls fuel 0 cj jf hres
  · intro hsync h1 h2
    rw [hsync]
    simp only [if_pos rfl]
    rw [pollLoop_stuck (env.gce_project.getD "") a.name a.poll_interval w.polls h2 fuel 0 cj h1]
    simp

/-- C4 (witness): with sync on and an oracle whose responses never carry a
RUNNING status, a concrete run only exhausts its fuel: the loop does not
terminate. -/
theorem C4_witness :
    (main true { name := "demo" } demoEnv demoWorld 3).1 = .diverge :=
  (C4_sync_poll_loop { name := "demo" } demoEnv demoWorld 3 "404" {} (by decide) (by decide)
    (by decide) rfl (Or.inl rfl) rfl rfl rfl rfl).2.2.2 rfl rfl (fun n => rfl)

/-- C5: with desired state absent, when the initial fetch finds the cluster
and the delete call succeeds, exactly one delete call is issued (the trace
is one get then one delete) and the run exits with changed=true; when the
fetch reports the cluster missing, no delete call is issued and the run
exits with changed=false. -/
theorem C5_absent_delete (a : ModuleArgs) (env : Env) (w : World) (fuel : Nat)
    (hmux : ¬(a.network.isSome = true ∧ a.subnetwork.isSome = true))
    (hzone : startswith a.zone a.region = true)
    (henv : envOk env = true)
    (hauth : w.auth = .ok ())
    (hstate : a.state = "absent" ∨ a.state = "deleted") :
    (∀ r dj, w.fetch0 = .ok r → w.deleteRes = .ok dj →
      main true a env w fuel =
        (.exitJson true dj,
         [Call.get (env.gce_project.getD "") "global" a.name,
          Call.delete (env.gce_project.getD "") "global" a.name])) ∧
    (∀ m, w.fetch0 = .httpError m →
      main true a env w fuel =
        (.exitJson false {}, [Call.get (env.gce_project.getD "") "global" a.name])) := by
  have hnp : ¬(a.state = "present" ∨ a.state = "active") := by
    rcases hstate with h | h <;> rw [h] <;> decide
  rw [main_eq_absent a env w fuel hmux hzone henv hauth hstate hnp]
  constructor
  · intro r dj hf hd
    unfold absentFlow
    rw [hf, hd]
  · intro m hf
    unfold absentFlow
    rw [hf]

/-- C5 (witness): the theorem evaluated at a concrete absent-state run whose
fetch finds an existing cluster. -/
theorem C5_witness :
    main true { name := "demo", state := "absent" } demoEnv
        { fetch0 := .ok { payload := "existing" } } 0 =
      (.exitJson true {}, [Call.get "proj" "global" "demo", Call.delete "proj" "global" "demo"]) :=
  (C5_absent_delete _ demoEnv _ 0 (by decide) (by decide) (by decide) rfl (Or.inl rfl)).1
    { payload := "existing" } {} rfl rfl

/-- C6: with desired state present and the initial fetch finding an existing
cluster, the run makes no create call (its trace is the single get call),
exits with changed=false, and returns exactly the body obtained from that
fetch. -/
theorem C6_existing_no_create (a : ModuleArgs) (env : Env) (w : World) (fuel : Nat) (r : Resp)
    (hmux : ¬(a.network.isSome = true ∧ a.subnetwork.isSome = true))
    (hzone : startswith a.zone a.region = true)
    (henv : envOk env = true)
    (hauth : w.auth = .ok ())
    (hstate : a.state = "present" ∨ a.state = "active")
    (hfetch : w.fetch0 = .ok r) :
    main true a env w fuel =
      (.exitJson false r, [Call.get (env.gce_project.getD "") "global" a.name]) := by
  rw [main_eq_present a env w fuel hmux hzone henv hauth hstate]
  unfold presentFlow
  rw [hfetch]

/-- C6 (witness): the theorem evaluated at a concrete present-state run
whose fetch finds an existing cluster. -/
theorem C6_witness :
    main true noSyncArgs demoEnv { fetch0 := .ok { payload := "existing" } } 0 =
      (.exitJson false { payload := "existing" }, [Call.get "proj" "global" "demo"]) :=
  C6_existing_no_create noSyncArgs demoEnv _ 0 _ (by decide) (by decide) (by decide)
    rfl (Or.inl rfl) rfl

/-- C7: whenever the zone string does not start with the region string, the
run fails fatally (a `fail_json` outcome) with an empty call trace: no
network or API call is made. -/
theorem C7_zone_mismatch_no_calls (hasLib : Bool) (a : ModuleArgs) (env : Env) (w : World)
    (fuel : Nat) (hzone : startswith a.zone a.region = false) :
    (main hasLib a env w fuel).2 = [] ∧
    ∃ msg, (main hasLib a env w fuel).1 = .failJson false msg := by
  unfold main
  by_cases hmux : a.network.isSome = true ∧ a.subnetwork.isSome = true
  · rw [if_pos hmux]
    exact ⟨rfl, mutuallyExclusiveMsg, rfl⟩
  · rw [if_neg hmux]
    cases hasLib with
    | false =>
      rw [if_pos (by simp)]
      exact ⟨rfl, libMsg, rfl⟩
    | true =>
      rw [if_neg (show ¬¬(true = true) by simp)]
      rw [if_pos (by simp [hzone])]
      exact ⟨rfl, zoneMismatchMsg a.region a.zone, rfl⟩

/-- C7 (witness): the theorem evaluated at a concrete zone/region
mismatch. -/
theorem C7_witness :
    (main true { name := "demo", region := "europe-west1", zone := "us-central1-a" }
        demoEnv demoWorld 0).2 = [] ∧
    ∃ msg, (main true { name := "demo", region := "europe-west1", zone := "us-central1-a" }
        demoEnv demoWorld 0).1 = .failJson false msg :=
  C7_zone_mismatch_no_calls true _ demoEnv demoWorld 0 (by decide)

/-- C8: whenever both network and subnetwork are set, validation rejects the
input as a fatal configuration error with an empty call trace, before any
API call. -/
theorem C8_mutually_exclusive_rejected (hasLib : Bool) (a : ModuleArgs) (env : Env) (w : World)
    (fuel : Nat) (hn : a.network.isSome = true) (hs : a.subnetwork.isSome = true) :
    main hasLib a env w fuel = (.failJson false mutuallyExclusiveMsg, []) := by
  unfold main
  rw [if_pos ⟨hn, hs⟩]

/-- C8 (witness): the theorem evaluated at a concrete input with both
network and subnetwork set. -/
theorem C8_witness :
    main true { name := "demo", network := some "n1", subnetwork := some "s1" }
        demoEnv demoWorld 0 =
      (.failJson false mutuallyExclusiveMsg, []) :=
  C8_mutually_exclusive_rejected true _ demoEnv demoWorld 0 rfl rfl

/-- C9: every remote call in any run carries the literal region `'global'`,
regardless of the region input; and when neither network nor subnetwork is
truthy, the built request body does not depend on the region at all (the
region input only feeds the zone-prefix validation and the
network/subnetwork resource URIs). -/
theorem C9_region_always_global :
    (∀ (hasLib : Bool) (a : ModuleArgs) (env : Env) (w : World) (fuel : Nat) (c : Call),
      c ∈ (main hasLib a env w fuel).2 → Call.regionIsGlobal c = true) ∧
    (∀ (p : Params) (name project region1 region2 zone : String),
      truthyStr p.network = false → truthyStr p.subnetwork = false →
      populate_request_body p name project region1 zone =
        populate_request_body p name project region2 zone) := by
  constructor
  · exact main_calls_global
  · intro p name project region1 region2 zone hn hs
    unfold populate_request_body
    have h1 : ∀ b, stepNetwork p project region1 b = b :=
      fun b => stepNetwork_skip p project region1 b hn
    have h2 : ∀ b, stepNetwork p project region2 b = b :=
      fun b => stepNetwork_skip p project region2 b hn
    have h3 : ∀ b, stepSubnetwork p project region1 b = b :=
      fun b => stepSubnetwork_skip p project region1 b hs
    have h4 : ∀ b, stepSubnetwork p project region2 b = b :=
      fun b => stepSubnetwork_skip p project region2 b hs
    simp only [h1, h2, h3, h4]

/-- C9 (witness): both parts evaluated concretely: a call from a real trace
is keyed to `'global'`, and two different regions yield the same body when
network and subnetwork are absent. -/
theorem C9_witness :
    Call.regionIsGlobal (Call.get "proj" "global" "demo") = true ∧
    populate_request_body {} "demo" "proj" "us-central1" "us-central1-a" =
      populate_request_body {} "demo" "proj" "europe-west1" "us-central1-a" :=
  ⟨C9_region_always_global.1 true noSyncArgs demoEnv demoWorld 0 _ (by decide),
   C9_region_always_global.2 {} "demo" "proj" "us-central1" "europe-west1" "us-central1-a" rfl rfl⟩

/-- C10: `tags` is not among the declared argument-spec keys, so the module
params built from the public interface always carry `tags = none`, and any
request body the builder returns from such params has no tags entry: the
tags branch is unreachable from the public interface. -/
theorem C10_tags_unreachable :
    ("tags" ∈ argument_spec_keys → False) ∧
    (∀ a : ModuleArgs, (Params.ofArgs a).tags = none) ∧
    (∀ (a : ModuleArgs) (n proj r z : String) (b : Body),
      populate_request_body (Params.ofArgs a) n proj r z = .ok b →
      b.config.gceClusterConfig.tags = none) := by
  refine ⟨by decide, fun a => rfl, ?_⟩
  intro a n proj r z b hok
  by_cases hsc : truthyList (Params.ofArgs a).service_account_scopes = true
  · rw [populate_raises _ n proj r z (Or.inl hsc)] at hok
    exact absurd hok (by simp)
  · by_cases hmd : truthyDict (Params.ofArgs a).metadata = true
    · rw [populate_raises _ n proj r z (Or.inr hmd)] at hok
      exact absurd hok (by simp)
    · have hsc' : truthyList (Params.ofArgs a).service_account_scopes = false := by
        cases hx : truthyList (Params.ofArgs a).service_account_scopes
        · rfl
        · exact absurd hx hsc
      have hmd' : truthyDict (Params.ofArgs a).metadata = false := by
        cases hx : truthyDict (Params.ofArgs a).metadata
        · rfl
        · exact absurd hx hmd
      rw [populate_request_body_eq _ n proj r z hsc' hmd'] at hok
      have hb : b = cleanBody (Params.ofArgs a) n proj r z := by
        injection hok with h
        exact h.symm
      rw [hb]
      simp [cleanBody, Params.ofArgs, truthyStr]

/-- C10 (witness): the theorem evaluated at a concrete public-interface
input. -/
theorem C10_witness :
    ((populate_request_body (Params.ofArgs noSyncArgs) "demo" "proj" "us-central1" "us-central1-a" =
      .ok (cleanBody (Params.ofArgs noSyncArgs) "demo" "proj" "us-central1" "us-central1-a")) →
      (cleanBody (Params.ofArgs noSyncArgs) "demo" "proj" "us-central1" "us-central1-a").config.gceClusterConfig.tags = none) ∧
    (Params.ofArgs noSyncArgs).tags = none :=
  ⟨C10_tags_unreachable.2.2 noSyncArgs "demo" "proj" "us-central1" "us-central1-a" _,
   C10_tags_unreachable.2.1 noSyncArgs⟩

end Gcdataproc
